import Mathlib

/-!
# Vision2AR — verification of the diagnostic core and retrieval pipeline

Shallow embedding of the belief engine (`backend/diagnosis/belief_engine.py`),
the tutorial matcher (`backend/analysis/tutorial_matcher.py`) and the
answer-handling decision logic of the session orchestrator (`backend/main.py`).

Python `float` values are modelled as exact rationals (`ℚ`); Python dicts
(which preserve insertion order) are modelled as association lists in
insertion order; database rows are modelled as lists of records passed in
explicitly.  Python exceptions (`float(...)` may raise `ValueError`) are
modelled with `Except String`.
-/

namespace Vision2AR

/-- A Python dict from cause id to probability, in insertion order
(the runtime representation of a belief vector). -/
abbrev BeliefMap := List (String × ℚ)

/-- `sum(d.values())`. -/
def sumVals (b : BeliefMap) : ℚ := (b.map Prod.snd).sum

/-- `cause in d` for a string-keyed dict. -/
def hasKey (b : BeliefMap) (k : String) : Bool := b.any (fun p => p.1 == k)

/-- `d.get(k)` for a string-keyed dict (generic in the value type). -/
def lookupS {α : Type} (l : List (String × α)) (k : String) : Option α :=
  (l.find? (fun p => p.1 == k)).map Prod.snd

/-- `d[k] = f(d[k])` — update the value stored at an existing key in place,
keeping dict order. -/
def setVal (b : BeliefMap) (k : String) (f : ℚ → ℚ) : BeliefMap :=
  b.map (fun p => if p.1 == k then (p.1, f p.2) else p)

/-- The normalization step shared by `initialize_beliefs`, `update_beliefs`
and `update_beliefs_semantic`: divide by the total when it is positive,
otherwise leave the dict untouched (`if total > 0`). -/
def normalizeB (b : BeliefMap) : BeliefMap :=
  let total := sumVals b
  if 0 < total then b.map (fun p => (p.1, p.2 / total)) else b

/-- `dict(sorted(d.items(), key=lambda x: x[1], reverse=True))` — a stable
sort by value, descending (Python's sort is stable). -/
def sortDesc (b : BeliefMap) : BeliefMap :=
  List.insertionSort (fun x y => x.2 ≥ y.2) b

/-- Python's `max(iterable, key=key)`: the first element attaining the
maximal key (later elements replace the running maximum only when strictly
greater), `none` on the empty list (where Python raises). -/
def pyMaxBy {α : Type} (key : α → ℚ) : List α → Option α
  | [] => none
  | x :: xs => some (xs.foldl (fun best y => if key best < key y then y else best) x)

/-- `BeliefEngine.get_confidence`: `max(beliefs.values()) if beliefs else 0.0`. -/
def getConfidence (b : BeliefMap) : ℚ :=
  match b with
  | [] => 0
  | p :: ps => (ps.map Prod.snd).foldl max p.2

/-- `BeliefEngine.get_diagnosis`: `("unknown", 0.0)` on an empty belief
vector, otherwise the first key with maximal probability together with its
probability. -/
def getDiagnosis (b : BeliefMap) : String × ℚ :=
  match pyMaxBy Prod.snd b with
  | none => ("unknown", 0)
  | some p => p

/-- Digits of a decimal string read as a natural number (`none` when the
digit run is empty or contains a non-digit). -/
def digitsVal? (cs : List Char) : Option ℕ :=
  if cs.isEmpty then none
  else if cs.all Char.isDigit then
    some (cs.foldl (fun a c => a * 10 + (c.toNat - 48)) 0)
  else none

/-- Split a character list at the first occurrence of `sep`: the prefix
before it and, when `sep` occurs, the remainder after it. -/
def splitFirst (sep : Char) : List Char → List Char × Option (List Char)
  | [] => ([], none)
  | c :: cs =>
    if c = sep then ([], some cs)
    else
      let r := splitFirst sep cs
      (c :: r.1, r.2)

/-- An unsigned decimal literal: `"15"`, `"1.8"`, `"5."`, `".5"` (at most
one dot, at least one digit overall). -/
def parseUnsigned (cs : List Char) : Option ℚ :=
  let p := splitFirst '.' cs
  match p.2 with
  | none => (digitsVal? p.1).map (fun n => (n : ℚ))
  | some b =>
    if b.contains '.' then none
    else if p.1.isEmpty && b.isEmpty then none
    else
      match (if p.1.isEmpty then some 0 else digitsVal? p.1),
            (if b.isEmpty then some 0 else digitsVal? b) with
      | some x, some y => some ((x : ℚ) + (y : ℚ) / (10 : ℚ) ^ b.length)
      | _, _ => none

/-- Model of Python `float` (on a character list) restricted to plain
decimal literals with an optional sign — the only multiplier shapes this
repository stores (`"1.8"`, `"0.6"`, ...).  Exponent, infinity and
whitespace forms are out of scope; `none` models the `ValueError` Python
raises. -/
def pyFloatChars (cs : List Char) : Option ℚ :=
  if cs.head? = some '-' then (parseUnsigned cs.tail).map Neg.neg
  else if cs.head? = some '+' then parseUnsigned cs.tail
  else parseUnsigned cs

/-- Model of Python `float(s)` on a string, via `pyFloatChars`. -/
def pyFloat? (s : String) : Option ℚ := pyFloatChars s.toList

/-- A JSON multiplier value as stored under `belief_updates`: either a
string (the `"*1.8"` encoding) or a plain number. -/
inductive JMult
  | str (s : String)
  | num (q : ℚ)
deriving DecidableEq

/-- One iteration of the update loop in `BeliefEngine.update_beliefs`:
the multiplier is applied only when the cause is already present in the
beliefs AND the multiplier is a string starting with `"*"`; every other
shape leaves the dict untouched.  `Except.error` models the `ValueError`
raised by `float(multiplier[1:])` on an unparsable tail. -/
def applyEntry (b : BeliefMap) (cause : String) (m : JMult) : Except String BeliefMap :=
  if hasKey b cause then
    match m with
    | .str s =>
      -- `multiplier.startswith("*")` for the one-character prefix `"*"`,
      -- then `float(multiplier[1:])`.
      if s.toList.head? = some '*' then
        match pyFloatChars s.toList.tail with
        | some factor => .ok (setVal b cause (· * factor))
        | none => .error "ValueError"
      else .ok b
    | .num _ => .ok b
  else .ok b

/-- The `for cause, multiplier in updates.items()` loop of
`BeliefEngine.update_beliefs`. -/
def applyUpdates (b : BeliefMap) (us : List (String × JMult)) : Except String BeliefMap :=
  us.foldlM (fun acc cm => applyEntry acc cm.1 cm.2) b

/-- A question's `skip_if` dict (all keys optional). -/
structure SkipIf where
  brand_confidence : Option String := none
  symptom_present : Option (List String) := none
  symptom_not_present : Option (List String) := none
  visual_symptoms_detected : Option (List String) := none
deriving DecidableEq

/-- A base question record from `questions.json` (the fields the engine
reads; fields accessed with `dict.get` are optional). -/
structure Question where
  category : Option String := none
  skip_if : SkipIf := {}
  information_gain_estimate : Option ℚ := none
  belief_updates : List (String × List (String × JMult)) := []
deriving DecidableEq

/-- A row of the `learned_questions` table (the fields used by
`update_beliefs` and `select_next_question`). -/
structure LearnedQuestion where
  question_id : String
  category : String
  approved : Bool
  information_gain_avg : ℚ
  belief_updates_json : Option (List (String × List (String × JMult))) := none
deriving DecidableEq

/-- A row of the `learned_patterns` table (the fields used by
`initialize_beliefs`; the fetched `confidence` column is never read). -/
structure LearnedPattern where
  symptom_combination : List String
  cause : String
  category : String
  approved : Bool
  success_rate : ℚ
  support_count : ℕ
deriving DecidableEq

/-- A pattern from `symptom_mappings.json` (`category` and `confidence`
are read with `dict.get`, hence optional; `confidence` defaults to 1.0). -/
structure Pattern where
  category : Option String := none
  symptoms : List String
  causes : List (String × ℚ)
  confidence : Option ℚ := none
deriving DecidableEq

/-- The engine's knowledge: base JSON files plus the database tables it
queries during a session (approved learned rows are selected by the SQL
`WHERE` clauses, modelled in the operations themselves). -/
structure Engine where
  basePatterns : List Pattern := []
  baseQuestions : List (String × Question) := []
  learnedQuestions : List LearnedQuestion := []
  learnedPatterns : List LearnedPattern := []

/-- The update-lookup phase of `BeliefEngine.update_beliefs`: the base
questions are consulted first; an unknown id falls back to the
`learned_questions` table (`WHERE question_id = $1 AND approved = true`,
used only when its `belief_updates_json` is truthy, i.e. present and
non-empty).  `none` is the code path that returns the current beliefs
unchanged before any update dict is selected. -/
def questionUpdates (e : Engine) (question_id answer : String) :
    Option (List (String × JMult)) :=
  match lookupS e.baseQuestions question_id with
  | some q => some ((lookupS q.belief_updates answer).getD [])
  | none =>
    match e.learnedQuestions.find? (fun lq => lq.question_id == question_id && lq.approved) with
    | some lq =>
      match lq.belief_updates_json with
      | some j => if j.isEmpty then none else some ((lookupS j answer).getD [])
      | none => none
    | none => none

/-- `BeliefEngine.update_beliefs`.  When the lookup yields no updates (or
an empty update dict) the current beliefs are returned unchanged.
Otherwise the update loop runs, then the dict is normalized and re-sorted
descending by probability. -/
def updateBeliefs (e : Engine) (current : BeliefMap) (question_id answer : String) :
    Except String BeliefMap :=
  match questionUpdates e question_id answer with
  | none => .ok current
  | some updates =>
    if updates.isEmpty then .ok current
    else do
      let b ← applyUpdates current updates
      pure (sortDesc (normalizeB b))

/-- Python `set(l)`, as the list of distinct elements (first occurrences).
The sets built by the code are only used for membership tests and
cardinalities, so their iteration order is irrelevant. -/
def pySet : List String → List String
  | [] => []
  | x :: xs => x :: (pySet xs).filter (fun y => y ≠ x)

/-- `beliefs[cause] = beliefs.get(cause, 0.0) + amount`: add to an existing
key in place, or append a new key at the end (Python dict order). -/
def addTo (b : BeliefMap) (k : String) (amount : ℚ) : BeliefMap :=
  if hasKey b k then setVal b k (· + amount) else b ++ [(k, amount)]

/-- The accumulation loops of `BeliefEngine.initialize_beliefs`, before
normalization: base patterns of the category weighted by `α = 0.7`,
then approved learned patterns of the category weighted by `1 − α`.
The learned damping `w(π) = r·(1 − e^{−n/n₀})` uses the transcendental
`math.exp`, which has no exact rational value, so it is abstracted as the
parameter `damp : success_rate → support_count → w`; every theorem below
holds for an arbitrary `damp`. -/
def rawInitializeBeliefs (e : Engine) (damp : ℚ → ℕ → ℚ)
    (symptoms visual_symptoms : List String) (category : String) : BeliefMap :=
  let all_symptoms := pySet (symptoms ++ visual_symptoms)
  let alpha : ℚ := 7/10
  let base := e.basePatterns.foldl (fun beliefs pattern =>
    if pattern.category ≠ some category then beliefs
    else
      let ps := pySet pattern.symptoms
      let overlap := ps.filter (fun s => all_symptoms.contains s)
      if overlap.isEmpty then beliefs
      else
        let overlap_ratio : ℚ := (overlap.length : ℚ) / (ps.length : ℚ)
        let pattern_confidence := pattern.confidence.getD 1
        pattern.causes.foldl (fun bs cp =>
          addTo bs cp.1 (alpha * cp.2 * overlap_ratio * pattern_confidence)) beliefs)
    ([] : BeliefMap)
  let learned_weight : ℚ := 1 - alpha
  (e.learnedPatterns.filter (fun lp => lp.approved && lp.category == category)).foldl
    (fun beliefs lp =>
      let ps := pySet lp.symptom_combination
      let overlap := ps.filter (fun s => all_symptoms.contains s)
      if overlap.isEmpty then beliefs
      else
        let overlap_ratio : ℚ := (overlap.length : ℚ) / (ps.length : ℚ)
        let w := damp lp.success_rate lp.support_count
        addTo beliefs lp.cause (learned_weight * w * overlap_ratio))
    base

/-- `BeliefEngine.initialize_beliefs`: accumulate, normalize, sort
descending.  The optional `brand` argument of the Python method is never
read in its body and is omitted here. -/
def initializeBeliefs (e : Engine) (damp : ℚ → ℕ → ℚ)
    (symptoms visual_symptoms : List String) (category : String) : BeliefMap :=
  sortDesc (normalizeB (rawInitializeBeliefs e damp symptoms visual_symptoms category))

/-- The processed-input dict consulted by the skip logic (keys read with
`dict.get` and their defaults). -/
structure ProcessedInput where
  brand_confidence : ℚ := 0
  symptoms : List String := []
  visual_symptoms : List String := []
deriving DecidableEq

/-- The skip reasons of `should_ask_question` (the Python code returns
format strings; only their identities matter to the selection logic). -/
inductive SkipReason
  | questionNotFound
  | alreadyAsked
  | brandKnown
  | symptomDetected
  | notRelevantToSymptoms
  | visualAlreadyProvided
  | lowGain
  | doesNotDistinguishTopCauses
  | highConfidence
deriving DecidableEq

/-- `BeliefEngine.should_ask_question`: `(should_ask, skip_reason)`.
Looks the id up in the BASE questions only; an unknown id — including
every learned question id — yields `(false, Question not found)`.
`Except.error` models the `ValueError` raised by `float()` on a malformed
`brand_confidence` threshold string. -/
def shouldAskQuestion (e : Engine) (question_id : String) (current_beliefs : BeliefMap)
    (pin : ProcessedInput) (asked_questions : List String) :
    Except String (Bool × Option SkipReason) :=
  match lookupS e.baseQuestions question_id with
  | none => .ok (false, some .questionNotFound)
  | some question =>
    if asked_questions.contains question_id then .ok (false, some .alreadyAsked)
    else
      let sc := question.skip_if
      let detected := pin.symptoms ++ pin.visual_symptoms
      let brandCheck : Except String Bool :=
        match sc.brand_confidence with
        | some ts =>
          -- `float(ts.replace(">", "").replace("<", ""))`, then
          -- `">" in ts and brand_conf > threshold`
          match pyFloatChars (ts.toList.filter (fun c => !(c == '>') && !(c == '<'))) with
          | some threshold =>
            .ok (ts.toList.contains '>' && decide (threshold < pin.brand_confidence))
          | none => .error "ValueError"
        | none => .ok false
      do
      let brandSkip ← brandCheck
      if brandSkip then return (false, some .brandKnown)
      if (match sc.symptom_present with
          | some req => req.any (fun s => detected.contains s)
          | none => false) then return (false, some .symptomDetected)
      if (match sc.symptom_not_present with
          | some req => !req.any (fun s => detected.contains s)
          | none => false) then return (false, some .notRelevantToSymptoms)
      if (match sc.visual_symptoms_detected with
          | some req => req.any (fun v => pin.visual_symptoms.contains v)
          | none => false) then return (false, some .visualAlreadyProvided)
      if question.information_gain_estimate.getD 0 < 3/5 then
        return (false, some .lowGain)
      let top_causes := (current_beliefs.map Prod.fst).take 3
      let affects := question.belief_updates.any (fun au =>
        au.2.any (fun cu => top_causes.contains cu.1))
      if !affects then return (false, some .doesNotDistinguishTopCauses)
      if 9/10 < getConfidence current_beliefs then
        -- `max(current_beliefs.values()) if current_beliefs else 0.0`
        return (false, some .highConfidence)
      return (true, none)

/-- A candidate of `select_next_question`: either a base question dict or
the dict built from a `learned_questions` row (whose
`information_gain_estimate` is the table's `information_gain_avg`). -/
inductive Candidate
  | base (id : String) (q : Question)
  | learned (id : String) (gain : ℚ)
deriving DecidableEq

def candId : Candidate → String
  | .base i _ => i
  | .learned i _ => i

/-- `q.get("information_gain_estimate", 0.5)` on a candidate dict. -/
def candGain : Candidate → ℚ
  | .base _ q => q.information_gain_estimate.getD (1/2)
  | .learned _ g => g

/-- The candidate list of `select_next_question`: base questions of the
category that were not asked yet, followed by approved learned questions
of the category not asked yet (appended after the base ones, in table
order). -/
def candidateQuestions (e : Engine) (asked : List String) (category : String) :
    List Candidate :=
  (e.baseQuestions.filterMap (fun p =>
    if p.2.category == some category && !asked.contains p.1
    then some (.base p.1 p.2) else none))
  ++ (e.learnedQuestions.filterMap (fun lq =>
    if lq.approved && lq.category == category && !asked.contains lq.question_id
    then some (.learned lq.question_id lq.information_gain_avg) else none))

/-- The survivors of the skip-logic filter inside `select_next_question`. -/
def validQuestions (e : Engine) (beliefs : BeliefMap) (pin : ProcessedInput)
    (asked : List String) (category : String) : Except String (List Candidate) :=
  (candidateQuestions e asked category).filterM (fun c =>
    (shouldAskQuestion e (candId c) beliefs pin asked).map Prod.fst)

/-- `BeliefEngine.select_next_question`: build candidates, filter by
`should_ask_question`, then `max(valid, key=information_gain_estimate)` —
Python's `max` keeps the FIRST element attaining the maximum. -/
def selectNextQuestion (e : Engine) (beliefs : BeliefMap) (pin : ProcessedInput)
    (asked : List String) (category : String) : Except String (Option Candidate) := do
  let candidates := candidateQuestions e asked category
  if candidates.isEmpty then return none
  let valid ← validQuestions e beliefs pin asked category
  if valid.isEmpty then return none
  return pyMaxBy candGain valid

/-- A tutorial record as stored in the tutorials table / Weaviate index.
`category` is the dataset category column (`PC`, `Mac`, ...) added by
`scripts/add_category_column.py`. -/
structure Tutorial where
  tutorial_id : ℕ
  brand : Option String := none
  category : String
  keywords : List String := []
deriving DecidableEq

/-- One Weaviate hit for the query text: a tutorial plus the reported
vector distance (`_additional.distance`, read with a `1.0` default). -/
structure VectorHit where
  tutorial : Tutorial
  distance : Option ℚ := none
deriving DecidableEq

/-- `TutorialMatcher._vector_search`.  The Weaviate index is modelled as
the list of hits the external vector engine returns for the query text,
in relevance order.  The `where` filter built by the code contains ONLY
the brand clause; the `category` argument is accepted but never used in
the filter, so the session category does not restrict this stage.  Each
hit is scored `max(0, 1 − distance)`. -/
def vectorSearch (index : List VectorHit) (category : String) (brand : Option String)
    (k : ℕ) : List (Tutorial × ℚ) :=
  let filtered :=
    match brand with
    | some b => index.filter (fun (h : VectorHit) => h.tutorial.brand == some b)
    | none => index
  (filtered.take k).map (fun (h : VectorHit) => (h.tutorial, max 0 (1 - h.distance.getD 1)))

/-- `TutorialMatcher._keyword_search`.  The SQL `WHERE` clause filters by
brand (when given) and keyword-array overlap (when the query keyword list
is non-empty) and LIMITs the rows; no category condition appears, so the
`category` argument never restricts this stage either.  Each row is
scored by the Jaccard similarity of the keyword sets. -/
def keywordSearch (table : List Tutorial) (keywords : List String) (category : String)
    (brand : Option String) (limit : ℕ) : List (Tutorial × ℚ) :=
  let rows := table.filter (fun t =>
    (match brand with | some b => t.brand == some b | none => true)
    && (keywords.isEmpty || t.keywords.any (fun kw => keywords.contains kw)))
  (rows.take limit).map (fun t =>
    let tks := pySet t.keywords
    let sks := pySet keywords
    let inter := (tks.filter (fun x => sks.contains x)).length
    let uni := (tks ++ sks.filter (fun x => !tks.contains x)).length
    (t, if 0 < uni then (inter : ℚ) / (uni : ℚ) else 0))

/-- The aggregate row
`SELECT COUNT(*), AVG(solved), AVG((clarity+accuracy)/10) ... WHERE
tutorial_id = $1`: with no feedback rows the count is 0 and both averages
are SQL `NULL` (`none`). -/
structure FeedbackAgg where
  feedback_count : ℕ := 0
  success_rate : Option ℚ := none
  avg_rating : Option ℚ := none
deriving DecidableEq

/-- Python's `x or default` on an optional float: `None` and `0.0` both
fall back to the default. -/
def pyOrQ (x : Option ℚ) (d : ℚ) : ℚ :=
  match x with
  | none => d
  | some v => if v = 0 then d else v

/-- A candidate after feedback re-ranking. -/
structure RankedTutorial where
  tutorial : Tutorial
  hybrid_score : ℚ
  feedback_score : ℚ
  final_score : ℚ
  feedback_count : ℕ
deriving DecidableEq

/-- `TutorialMatcher._feedback_reranking` (`gamma` is `self.gamma`,
default 0.3; `fb` models the feedback-store aggregate per tutorial id).
When `feedback_count > 0` the candidate gets
`final_score = hybrid_score · (1 + γ·feedback_score)`; with NO feedback
the code stores the neutral `feedback_score = 0.5` but sets
`final_score = hybrid_score`, leaving the hybrid score unamplified.
Results are then re-sorted descending by final score (stable). -/
def rerankEntry (gamma : ℚ) (fb : ℕ → FeedbackAgg) (th : Tutorial × ℚ) :
    RankedTutorial :=
  let agg := fb th.1.tutorial_id
  if 0 < agg.feedback_count then
    let success_rate := pyOrQ agg.success_rate 0
    let avg_rating := pyOrQ agg.avg_rating (1/2)
    let feedback_score := (success_rate + avg_rating) / 2
    { tutorial := th.1, hybrid_score := th.2, feedback_score := feedback_score,
      final_score := th.2 * (1 + gamma * feedback_score),
      feedback_count := agg.feedback_count }
  else
    { tutorial := th.1, hybrid_score := th.2, feedback_score := 1/2,
      final_score := th.2, feedback_count := 0 }

/-- The whole re-ranking pass: score every candidate, then re-sort
descending by final score (stable). -/
def feedbackReranking (gamma : ℚ) (fb : ℕ → FeedbackAgg)
    (results : List (Tutorial × ℚ)) : List RankedTutorial :=
  List.insertionSort (fun x y => x.final_score ≥ y.final_score)
    (results.map (rerankEntry gamma fb))

/-- `last_3 = history[-3:]; last_3[-1] - last_3[0]`. -/
def last3Improvement (history : List ℚ) : ℚ :=
  let last3 := history.drop (history.length - 3)
  last3.getLastD 0 - last3.headD 0

/-- The stagnation check in `answer_question` (`backend/main.py`): at
least three recorded confidences and an improvement below 0.05 across the
last three. -/
def confidenceStagnating (history : List ℚ) : Bool :=
  decide (3 ≤ history.length) && decide (last3Improvement history < 1/20)

/-- The `diagnosis_state` chosen by the `answer_question` handler after
the belief update: the new confidence
(`max(updated_belief.values()) if updated_belief else 0.0`) is appended
to the session's confidence history, then (1) the stagnation escape fires
when the history stagnates and at least two questions have been asked,
returning `"uncertain"` (with 8 tutorials); (2) otherwise confidence
`≥ 0.75` returns `"complete"` (with 5 tutorials); (3) otherwise an
available next question keeps `"questioning"`, and no next question
returns `"uncertain"` (with 5 tutorials). -/
def answerOutcome (prev_history : List ℚ) (asked_count : ℕ)
    (updated_belief : BeliefMap) (has_next_question : Bool) : String :=
  let history := prev_history ++ [getConfidence updated_belief]
  if confidenceStagnating history && decide (2 ≤ asked_count) then "uncertain"
  else if 3/4 ≤ getConfidence updated_belief then "complete"
  else if has_next_question then "questioning"
  else "uncertain"

-- Test fixtures used by the claim theorems below.

/-- The "battery_led" base question of Scenario B. -/
def qBatteryLed : Question :=
  { category := some "laptop",
    information_gain_estimate := some (4/5),
    belief_updates := [("no", [("power_supply", .str "*1.8"), ("battery", .str "*0.6")])] }

/-- An engine holding just the Scenario B question. -/
def engBattery : Engine := { baseQuestions := [("battery_led", qBatteryLed)] }

/-- An approved learned question eligible on every skip criterion. -/
def lqEligible : LearnedQuestion :=
  { question_id := "lq1",
    category := "laptop",
    approved := true,
    information_gain_avg := 9/10,
    belief_updates_json := some [("yes", [("battery", .str "*1.8")])] }

/-- An engine whose only question is the approved learned one. -/
def engLearnedOnly : Engine := { learnedQuestions := [lqEligible] }

/-- A filter-surviving base question with the lexicographically larger id,
first in file order. -/
def qHighId : Question :=
  { category := some "laptop",
    information_gain_estimate := some (7/10),
    belief_updates := [("yes", [("c1", .str "*1.5")])] }

/-- A filter-surviving base question with the lexicographically smaller
id, second in file order, same information gain. -/
def qLowId : Question :=
  { category := some "laptop",
    information_gain_estimate := some (7/10),
    belief_updates := [("yes", [("c1", .str "*0.5")])] }

/-- An engine with two equal-gain questions, the larger id first. -/
def engTie : Engine :=
  { baseQuestions := [("z_question", qHighId), ("a_question", qLowId)] }

/-- A "Mac" tutorial present in both indexes. -/
def tutMac : Tutorial := { tutorial_id := 3, category := "Mac", keywords := ["screen"] }

/-- Scenario A's single static pattern. -/
def patScenarioA : Pattern :=
  { category := some "laptop",
    symptoms := ["no_power", "led_off"],
    causes := [("power_supply", 4/5), ("battery", 1/5)],
    confidence := some 1 }

/-- An engine holding just Scenario A's pattern. -/
def engScenarioA : Engine := { basePatterns := [patScenarioA] }

/-- A pattern whose only cause has probability 0. -/
def patZeroCause : Pattern :=
  { category := some "laptop", symptoms := ["s"], causes := [("x", 0)], confidence := some 1 }

/-- An engine holding just the zero-probability pattern. -/
def engZeroCause : Engine := { basePatterns := [patZeroCause] }

-- General lemmas about the embedded operations.

lemma sumVals_cons (p : String × ℚ) (ps : BeliefMap) :
    sumVals (p :: ps) = p.2 + sumVals ps := by
  simp [sumVals]

lemma sumVals_sortDesc (b : BeliefMap) : sumVals (sortDesc b) = sumVals b := by
  unfold sumVals sortDesc
  exact ((List.perm_insertionSort _ b).map Prod.snd).sum_eq

lemma sumVals_map_div (b : BeliefMap) (t : ℚ) :
    sumVals (b.map (fun p => (p.1, p.2 / t))) = sumVals b / t := by
  induction b with
  | nil => simp [sumVals]
  | cons p ps ih =>
    rw [List.map_cons, sumVals_cons, sumVals_cons, ih, add_div]

lemma sumVals_normalizeB_of_pos (b : BeliefMap) (h : 0 < sumVals b) :
    sumVals (normalizeB b) = 1 := by
  unfold normalizeB
  rw [if_pos h, sumVals_map_div, div_self (ne_of_gt h)]

lemma normalizeB_of_nonpos (b : BeliefMap) (h : ¬ 0 < sumVals b) :
    normalizeB b = b := by
  unfold normalizeB
  rw [if_neg h]

lemma setVal_keys (b : BeliefMap) (k : String) (f : ℚ → ℚ) :
    (setVal b k f).map Prod.fst = b.map Prod.fst := by
  induction b with
  | nil => rfl
  | cons p ps ih =>
    simp only [setVal, List.map_cons] at ih ⊢
    rw [ih]
    by_cases h : (p.1 == k) = true
    · rw [if_pos h]
    · rw [if_neg h]

lemma applyEntry_keys (b : BeliefMap) (c : String) (m : JMult) (b' : BeliefMap)
    (h : applyEntry b c m = .ok b') : b'.map Prod.fst = b.map Prod.fst := by
  unfold applyEntry at h
  split at h
  · split at h
    · split at h
      · split at h
        · injection h with h'
          rw [← h', setVal_keys]
        · injection h
      · injection h with h'
        rw [← h']
    · injection h with h'
      rw [← h']
  · injection h with h'
    rw [← h']

lemma applyUpdates_keys (us : List (String × JMult)) (b b' : BeliefMap)
    (h : applyUpdates b us = .ok b') : b'.map Prod.fst = b.map Prod.fst := by
  induction us generalizing b with
  | nil =>
    simp only [applyUpdates, List.foldlM, pure, Except.pure, Except.ok.injEq] at h
    rw [← h]
  | cons u us ih =>
    cases he : applyEntry b u.1 u.2 with
    | error e =>
      rw [applyUpdates, List.foldlM] at h
      simp [he, Bind.bind, Except.bind] at h
    | ok b1 =>
      have h2 : applyUpdates b1 us = .ok b' := by
        rw [applyUpdates, List.foldlM] at h
        simpa [he, Bind.bind, Except.bind, applyUpdates] using h
      rw [ih b1 h2, applyEntry_keys b u.1 u.2 b1 he]

/-- The running-maximum fold inside `pyMaxBy`: the result bounds every
element of `x :: xs` and occurs at a position all of whose predecessors
have strictly smaller keys (Python's `max` keeps the first maximum). -/
lemma pyFold_spec {α : Type} (key : α → ℚ) (xs : List α) :
    ∀ x : α,
      (∀ y ∈ x :: xs,
        key y ≤ key (List.foldl (fun best y => if key best < key y then y else best) x xs)) ∧
      ∃ l1 l2,
        x :: xs = l1 ++ (List.foldl (fun best y => if key best < key y then y else best) x xs) :: l2 ∧
        ∀ y ∈ l1,
          key y < key (List.foldl (fun best y => if key best < key y then y else best) x xs) := by
  induction xs with
  | nil =>
    intro x
    simp only [List.foldl_nil]
    refine ⟨?_, [], [], rfl, ?_⟩
    · intro y hy
      rw [List.mem_singleton] at hy
      subst hy
      exact le_refl _
    · intro y hy
      cases hy
  | cons z zs ih =>
    intro x
    by_cases hlt : key x < key z
    · obtain ⟨hb, l1, l2, hsplit, hl1⟩ := ih z
      have hr : List.foldl (fun best y => if key best < key y then y else best) x (z :: zs)
          = List.foldl (fun best y => if key best < key y then y else best) z zs := by
        rw [List.foldl_cons, if_pos hlt]
      rw [hr]
      have hzr := hb z (List.mem_cons_self z zs)
      refine ⟨?_, x :: l1, l2, ?_, ?_⟩
      · intro y hy
        rcases List.mem_cons.mp hy with rfl | hy2
        · exact le_trans (le_of_lt hlt) hzr
        · exact hb y hy2
      · rw [List.cons_append, ← hsplit]
      · intro y hy
        rcases List.mem_cons.mp hy with rfl | hy2
        · exact lt_of_lt_of_le hlt hzr
        · exact hl1 y hy2
    · obtain ⟨hb, l1, l2, hsplit, hl1⟩ := ih x
      have hr : List.foldl (fun best y => if key best < key y then y else best) x (z :: zs)
          = List.foldl (fun best y => if key best < key y then y else best) x zs := by
        rw [List.foldl_cons, if_neg hlt]
      rw [hr]
      have hxr := hb x (List.mem_cons_self x zs)
      refine ⟨?_, ?_⟩
      · intro y hy
        rcases List.mem_cons.mp hy with rfl | hy2
        · exact hxr
        · rcases List.mem_cons.mp hy2 with rfl | hy3
          · exact le_trans (le_of_not_lt hlt) hxr
          · exact hb y (List.mem_cons_of_mem x hy3)
      · cases l1 with
        | nil =>
          rw [List.nil_append] at hsplit
          rw [List.cons.injEq] at hsplit
          refine ⟨[], z :: l2, ?_, ?_⟩
          · rw [List.nil_append, ← hsplit.1, hsplit.2]
          · intro y hy
            cases hy
        | cons w l1w =>
          rw [List.cons_append, List.cons.injEq] at hsplit
          refine ⟨x :: z :: l1w, l2, ?_, ?_⟩
          · rw [List.cons_append, List.cons_append, ← hsplit.2]
          · intro y hy
            have hwr : key x <
                key (List.foldl (fun best y => if key best < key y then y else best) x zs) := by
              nth_rewrite 1 [hsplit.1]
              exact hl1 w (List.mem_cons_self w l1w)
            rcases List.mem_cons.mp hy with rfl | hy2
            · exact hwr
            · rcases List.mem_cons.mp hy2 with rfl | hy3
              · exact lt_of_le_of_lt (le_of_not_lt hlt) hwr
              · exact hl1 y (List.mem_cons_of_mem w hy3)

/-- Characterization of `pyMaxBy`: a returned element is a maximal element
of the list, and every element strictly before it has a strictly smaller
key. -/
lemma pyMaxBy_spec {α : Type} (key : α → ℚ) (l : List α) (c : α)
    (h : pyMaxBy key l = some c) :
    (∀ y ∈ l, key y ≤ key c) ∧
    ∃ l1 l2, l = l1 ++ c :: l2 ∧ ∀ y ∈ l1, key y < key c := by
  cases l with
  | nil => simp [pyMaxBy] at h
  | cons x xs =>
    simp only [pyMaxBy, Option.some.injEq] at h
    subst h
    exact pyFold_spec key xs x

lemma rerankEntry_tutorial (gamma : ℚ) (fb : ℕ → FeedbackAgg) (th : Tutorial × ℚ) :
    (rerankEntry gamma fb th).tutorial = th.1 := by
  by_cases h : 0 < (fb th.1.tutorial_id).feedback_count <;> simp [rerankEntry, h]

lemma rerankEntry_hybrid (gamma : ℚ) (fb : ℕ → FeedbackAgg) (th : Tutorial × ℚ) :
    (rerankEntry gamma fb th).hybrid_score = th.2 := by
  by_cases h : 0 < (fb th.1.tutorial_id).feedback_count <;> simp [rerankEntry, h]

-- Claim theorems.

/-- C9: on the empty belief vector `get_diagnosis` returns the sentinel
pair `("unknown", 0.0)` instead of failing, and `get_confidence` returns
`0.0`; both are total functions of the belief vector. -/
theorem c9_empty_belief_defaults :
    getDiagnosis [] = ("unknown", 0) ∧ getConfidence [] = 0 :=
  ⟨rfl, rfl⟩

/-- C10: the update loop of `update_beliefs` applies a multiplier only
when it is a string beginning with `"*"`; an entry of any other shape (a
plain number, or a string not starting with `"*"`) leaves the cause's
probability untouched and raises no error — that loop iteration is a
silent no-op. -/
theorem c10_non_star_multiplier_noop :
    (∀ (b : BeliefMap) (cause : String) (q : ℚ),
        applyEntry b cause (.num q) = .ok b) ∧
    (∀ (b : BeliefMap) (cause : String) (s : String),
        s.toList.head? ≠ some '*' → applyEntry b cause (.str s) = .ok b) := by
  constructor
  · intro b cause q
    unfold applyEntry
    split <;> rfl
  · intro b cause s hs
    have hdef : applyEntry b cause (.str s)
        = if hasKey b cause then
            (if s.toList.head? = some '*' then
              match pyFloatChars s.toList.tail with
              | some factor => .ok (setVal b cause (· * factor))
              | none => .error "ValueError"
            else .ok b)
          else .ok b := rfl
    rw [hdef, if_neg hs]
    split <;> rfl

/-- Witness for C10 at the concrete inputs `2` (a plain number) and
`"1.8"` (a string without the `"*"` prefix). -/
theorem c10_witness :
    applyEntry [("a", 1)] "a" (.num 2) = .ok [("a", 1)] ∧
    applyEntry [("a", 1)] "a" (.str "1.8") = .ok [("a", 1)] :=
  ⟨c10_non_star_multiplier_noop.1 [("a", 1)] "a" 2,
   c10_non_star_multiplier_noop.2 [("a", 1)] "a" "1.8" (by decide)⟩

/-- C3: for every belief vector, every question id that is known neither
as a base question nor as an approved learned question, and every answer,
`update_beliefs` returns the beliefs unchanged — a successful no-op, not
an error. -/
theorem c3_unknown_question_noop (e : Engine) (current : BeliefMap)
    (question_id answer : String)
    (hbase : lookupS e.baseQuestions question_id = none)
    (hlearned : e.learnedQuestions.find?
      (fun lq => lq.question_id == question_id && lq.approved) = none) :
    updateBeliefs e current question_id answer = .ok current := by
  unfold updateBeliefs questionUpdates
  rw [hbase, hlearned]

/-- Witness for C3: the id "mystery" is unknown to an engine that only
knows the "battery_led" question and has no learned questions. -/
theorem c3_witness :
    lookupS engBattery.baseQuestions "mystery" = none ∧
    updateBeliefs engBattery [("battery", 1/2), ("power_supply", 1/2)] "mystery" "yes"
      = .ok [("battery", 1/2), ("power_supply", 1/2)] :=
  ⟨by decide,
   c3_unknown_question_noop engBattery [("battery", 1/2), ("power_supply", 1/2)]
     "mystery" "yes" (by decide) (by decide)⟩

/-- C1 (code bug): neither retrieval stage restricts results to the
session's category.  With a single "Mac" tutorial present in both
indexes, a query for category "PC" still returns that tutorial from the
dense stage and from the sparse stage, because the Weaviate `where`
filter only ever contains a brand clause and the SQL `WHERE` clause has
no category condition. -/
theorem c1_category_not_filtered :
    vectorSearch [{ tutorial := tutMac, distance := some (1/5) }] "PC" none 50
      = [(tutMac, 4/5)] ∧
    keywordSearch [tutMac] ["screen"] "PC" none 50 = [(tutMac, 1)] ∧
    tutMac.category ≠ "PC" := by
  refine ⟨?_, ?_, by decide⟩
  · simp +decide [vectorSearch, tutMac]
    norm_num
  · simp +decide [keywordSearch, tutMac, pySet]

/-- C6 (code bug): approved learned questions do enter the candidate set
of `select_next_question`, but `should_ask_question` looks ids up only
among the BASE questions, so every learned candidate is rejected with
reason "Question not found" before the four skip criteria are even
evaluated; consequently, with no base questions and one fully eligible
approved learned question, the selector returns `none` instead of the
learned question. -/
theorem c6_learned_question_never_selected :
    candidateQuestions engLearnedOnly [] "laptop" = [.learned "lq1" (9/10)] ∧
    shouldAskQuestion engLearnedOnly "lq1" [("battery", 1/2), ("power_supply", 1/2)] {} []
      = .ok (false, some .questionNotFound) ∧
    selectNextQuestion engLearnedOnly [("battery", 1/2), ("power_supply", 1/2)] {} [] "laptop"
      = .ok none := by
  refine ⟨?_, ?_, ?_⟩
  · simp +decide [candidateQuestions, engLearnedOnly, lqEligible]
  · simp +decide [shouldAskQuestion, engLearnedOnly, lqEligible, lookupS]
  · simp +decide [selectNextQuestion, candidateQuestions, validQuestions, engLearnedOnly,
      lqEligible, shouldAskQuestion, lookupS, candId, List.filterM, Bind.bind, Except.bind,
      Functor.map, Except.map, pure, Except.pure, pyMaxBy]

/-- C2 is false as stated on the code: a candidate with
`feedback_count = 0` keeps `final_score = hybrid_score` — with hybrid
score 0.64 and γ = 0.3 the final score stays 0.64, and 0.64 differs from
the claimed 0.64·(1 + 0.3·0.5) = 0.736. -/
theorem c2_counterexample :
    feedbackReranking (3/10) (fun _ => {}) [(tutMac, 16/25)]
      = [{ tutorial := tutMac, hybrid_score := 16/25, feedback_score := 1/2,
           final_score := 16/25, feedback_count := 0 }] ∧
    (16/25 : ℚ) ≠ (16/25) * (1 + (3/10) * (1/2)) := by
  constructor
  · simp +decide [feedbackReranking, rerankEntry, tutMac, List.insertionSort,
      List.orderedInsert, pyOrQ]
  · norm_num

/-- C2 (amended): in feedback re-ranking, every candidate whose
aggregated feedback count is 0 is assigned the neutral
`feedback_score = 0.5`, but its `final_score` equals its `hybrid_score`
unchanged — the `1 + γ·feedback_score` amplification is applied only to
candidates that have feedback; concretely, hybrid score 0.64 stays
0.64. -/
theorem c2_zero_feedback_keeps_hybrid (gamma : ℚ) (fb : ℕ → FeedbackAgg)
    (results : List (Tutorial × ℚ)) (r : RankedTutorial)
    (hr : r ∈ feedbackReranking gamma fb results)
    (h0 : (fb r.tutorial.tutorial_id).feedback_count = 0) :
    r.feedback_score = 1/2 ∧ r.final_score = r.hybrid_score := by
  unfold feedbackReranking at hr
  rw [List.mem_insertionSort] at hr
  obtain ⟨th, hth, hr'⟩ := List.mem_map.mp hr
  subst hr'
  rw [rerankEntry_tutorial] at h0
  have hc : ¬ 0 < (fb th.1.tutorial_id).feedback_count := by
    rw [h0]
    exact lt_irrefl 0
  unfold rerankEntry
  rw [if_neg hc]
  exact ⟨rfl, rfl⟩

/-- Witness for C2's amended claim at the concrete zero-feedback
candidate with hybrid score 0.64. -/
theorem c2_witness :
    ({ tutorial := tutMac, hybrid_score := 16/25, feedback_score := 1/2,
       final_score := 16/25, feedback_count := 0 } : RankedTutorial).feedback_score = 1/2 ∧
    ({ tutorial := tutMac, hybrid_score := 16/25, feedback_score := 1/2,
       final_score := 16/25, feedback_count := 0 } : RankedTutorial).final_score
      = ({ tutorial := tutMac, hybrid_score := 16/25, feedback_score := 1/2,
           final_score := 16/25, feedback_count := 0 } : RankedTutorial).hybrid_score :=
  c2_zero_feedback_keeps_hybrid (3/10) (fun _ => {}) [(tutMac, 16/25)] _
    (by simp +decide [feedbackReranking, rerankEntry, tutMac, List.insertionSort,
          List.orderedInsert, pyOrQ])
    (by decide)

/-- C5: the update loop of `update_beliefs` multiplies only causes
already present in the current belief vector and never invents new
causes — the key list of the loop's result is exactly the input's key
list; concretely, beliefs `{battery: 0.5, power_supply: 0.5}` with
answer "no" to "battery_led" (updates `power_supply ×1.8`,
`battery ×0.6`) renormalize and re-sort to
`{power_supply: 0.75, battery: 0.25}`. -/
theorem c5_update_multiplies_present_causes :
    (∀ (current : BeliefMap) (us : List (String × JMult)) (b : BeliefMap),
        applyUpdates current us = .ok b → b.map Prod.fst = current.map Prod.fst) ∧
    updateBeliefs engBattery [("battery", 1/2), ("power_supply", 1/2)] "battery_led" "no"
      = .ok [("power_supply", 3/4), ("battery", 1/4)] := by
  constructor
  · exact fun current us b h => applyUpdates_keys us current b h
  · simp +decide [updateBeliefs, questionUpdates, engBattery, qBatteryLed, lookupS,
      applyUpdates, applyEntry, hasKey, setVal, pyFloatChars, parseUnsigned, digitsVal?,
      splitFirst, normalizeB, sumVals, sortDesc, List.insertionSort, List.orderedInsert,
      List.find?, Bind.bind, Except.bind, Functor.map, Except.map, pure, Except.pure]
    norm_num [List.insertionSort, List.orderedInsert]

/-- Witness for C5's universal part at the empty update list. -/
theorem c5_witness :
    ([("a", (1:ℚ))] : BeliefMap).map Prod.fst = ([("a", (1:ℚ))] : BeliefMap).map Prod.fst :=
  c5_update_multiplies_present_causes.1 [("a", 1)] [] [("a", 1)] rfl

/-- C4 is false as stated: a matched pattern whose only cause has
probability 0 makes `initialize_beliefs` produce the NON-empty belief
vector `{x: 0}` whose total is 0 (the normalization step is skipped when
the total is not positive), so `|Σp − 1| = 1 ≥ 1e-6`. -/
theorem c4_counterexample :
    initializeBeliefs engZeroCause (fun _ _ => 0) ["s"] [] "laptop" = [("x", 0)] ∧
    ([("x", (0:ℚ))] : BeliefMap) ≠ [] ∧
    ¬ |sumVals [("x", (0:ℚ))] - 1| < 1/1000000 := by
  refine ⟨?_, by simp, ?_⟩
  · simp +decide [initializeBeliefs, rawInitializeBeliefs, engZeroCause, patZeroCause,
      addTo, hasKey, setVal, normalizeB, sumVals, sortDesc, List.insertionSort,
      List.orderedInsert, pySet]
  · norm_num [sumVals]

/-- C4 (amended): whenever the accumulated pre-normalization total is
positive, `initialize_beliefs` returns a belief vector summing to exactly
1 (hence within 1e-6 of 1.0); and every `update_beliefs` result is either
the input returned unchanged (no-op paths) or sums to exactly 1, except
in the degenerate case where the multiplied vector's total is not
positive (then normalization is skipped and the total stays ≤ 0). -/
theorem c4_normalization :
    (∀ (e : Engine) (damp : ℚ → ℕ → ℚ) (symptoms visual_symptoms : List String)
        (category : String),
        0 < sumVals (rawInitializeBeliefs e damp symptoms visual_symptoms category) →
        sumVals (initializeBeliefs e damp symptoms visual_symptoms category) = 1) ∧
    (∀ (e : Engine) (current : BeliefMap) (question_id answer : String) (b : BeliefMap),
        updateBeliefs e current question_id answer = .ok b →
        b = current ∨ sumVals b = 1 ∨ sumVals b ≤ 0) := by
  constructor
  · intro e damp symptoms visual_symptoms category h
    unfold initializeBeliefs
    rw [sumVals_sortDesc, sumVals_normalizeB_of_pos _ h]
  · intro e current question_id answer b h
    unfold updateBeliefs at h
    split at h
    · injection h with h'
      exact Or.inl h'.symm
    · rename_i updates hequ
      split at h
      · injection h with h'
        exact Or.inl h'.symm
      · cases ha : applyUpdates current updates with
        | error err =>
          rw [ha] at h
          simp [Bind.bind, Except.bind] at h
        | ok b1 =>
          rw [ha] at h
          simp only [Bind.bind, Except.bind, pure, Except.pure, Except.ok.injEq] at h
          by_cases hp : 0 < sumVals b1
          · refine Or.inr (Or.inl ?_)
            rw [← h, sumVals_sortDesc, sumVals_normalizeB_of_pos _ hp]
          · refine Or.inr (Or.inr ?_)
            rw [← h, sumVals_sortDesc, normalizeB_of_nonpos _ hp]
            exact le_of_not_lt hp

/-- Witness for C4's amended claim: Scenario A's initialization has a
positive raw total and sums to 1, and Scenario B's update result sums to
1. -/
theorem c4_witness :
    sumVals (initializeBeliefs engScenarioA (fun _ _ => 0) ["no_power", "led_off"] [] "laptop")
      = 1 ∧
    (([("power_supply", (3:ℚ)/4), ("battery", (1:ℚ)/4)] : BeliefMap)
        = [("battery", 1/2), ("power_supply", 1/2)] ∨
      sumVals [("power_supply", (3:ℚ)/4), ("battery", (1:ℚ)/4)] = 1 ∨
      sumVals [("power_supply", (3:ℚ)/4), ("battery", (1:ℚ)/4)] ≤ 0) := by
  constructor
  · apply c4_normalization.1 engScenarioA (fun _ _ => 0) ["no_power", "led_off"] [] "laptop"
    simp +decide [rawInitializeBeliefs, engScenarioA, patScenarioA, addTo, hasKey,
      setVal, sumVals, pySet]
    norm_num
  · apply c4_normalization.2 engBattery [("battery", 1/2), ("power_supply", 1/2)]
      "battery_led" "no" [("power_supply", 3/4), ("battery", 1/4)]
    simp +decide [updateBeliefs, questionUpdates, engBattery, qBatteryLed, lookupS,
      applyUpdates, applyEntry, hasKey, setVal, pyFloatChars, parseUnsigned, digitsVal?,
      splitFirst, normalizeB, sumVals, sortDesc, List.insertionSort, List.orderedInsert,
      List.find?, Bind.bind, Except.bind, Functor.map, Except.map, pure, Except.pure]
    norm_num [List.insertionSort, List.orderedInsert]

/-- C8: whenever at least 2 questions have been asked and the last three
recorded confidence values (after appending the new one)改 improved by
less than 0.05 in total, the `answer_question` handler transitions the
session to the terminal "uncertain" state, regardless of the current
confidence and of question availability. -/
theorem c8_stagnation_goes_uncertain (prev_history : List ℚ) (asked_count : ℕ)
    (updated_belief : BeliefMap) (has_next_question : Bool)
    (h2 : 2 ≤ asked_count)
    (h3 : 3 ≤ (prev_history ++ [getConfidence updated_belief]).length)
    (h5 : last3Improvement (prev_history ++ [getConfidence updated_belief]) < 1/20) :
    answerOutcome prev_history asked_count updated_belief has_next_question = "uncertain" := by
  have hc : (confidenceStagnating (prev_history ++ [getConfidence updated_belief])
      && decide (2 ≤ asked_count)) = true := by
    unfold confidenceStagnating
    rw [Bool.and_eq_true, Bool.and_eq_true]
    exact ⟨⟨decide_eq_true h3, decide_eq_true h5⟩, decide_eq_true h2⟩
  simp only [answerOutcome]
  rw [if_pos hc]

/-- Witness for C8, Scenario D: confidence history `[0.40, 0.42, 0.44]`
after 3 questions stagnates (improvement 0.04 < 0.05) and yields the
"uncertain" state although 0.44 is below the 0.75 threshold. -/
theorem c8_witness :
    getConfidence [("x", (11:ℚ)/25)] < 3/4 ∧
    answerOutcome [2/5, 21/50] 3 [("x", 11/25)] true = "uncertain" := by
  constructor
  · norm_num [getConfidence]
  · apply c8_stagnation_goes_uncertain [2/5, 21/50] 3 [("x", 11/25)] true
    · norm_num
    · norm_num [getConfidence]
    · norm_num [last3Improvement, getConfidence]

/-- C7 is false as stated: with two surviving questions of equal
information gain, `select_next_question` returns the question that comes
FIRST in the candidate list ("z_question", file order), not the one with
the lowest question id ("a_question"). -/
theorem c7_counterexample :
    validQuestions engTie [("c1", 1/2), ("c2", 1/2)] {} [] "laptop"
      = .ok [.base "z_question" qHighId, .base "a_question" qLowId] ∧
    candGain (.base "z_question" qHighId) = candGain (.base "a_question" qLowId) ∧
    ("a_question" : String).toList < ("z_question" : String).toList ∧
    selectNextQuestion engTie [("c1", 1/2), ("c2", 1/2)] {} [] "laptop"
      = .ok (some (.base "z_question" qHighId)) := by
  refine ⟨?_, ?_, by decide, ?_⟩
  · simp +decide [validQuestions, candidateQuestions, engTie, qHighId, qLowId,
      shouldAskQuestion, lookupS, candId, List.filterM, Bind.bind, Except.bind,
      Functor.map, Except.map, pure, Except.pure, getConfidence]
    norm_num
  · simp [candGain, qHighId, qLowId]
  · simp +decide [selectNextQuestion, candidateQuestions, validQuestions, engTie,
      qHighId, qLowId, shouldAskQuestion, lookupS, candId, candGain, List.filterM,
      Bind.bind, Except.bind, Functor.map, Except.map, pure, Except.pure, pyMaxBy,
      getConfidence]
    norm_num
    intro h
    cases h

/-- C7 (amended): among the questions surviving all the skip filters,
`select_next_question` returns one with the highest
`information_gain_estimate`, and when several survivors share the
highest estimate it returns the FIRST of them in candidate order (base
questions in file order followed by learned questions), not the one with
the lowest question id. -/
theorem c7_highest_gain_first_survivor (e : Engine) (beliefs : BeliefMap)
    (pin : ProcessedInput) (asked : List String) (category : String)
    (vl : List Candidate) (c : Candidate)
    (hv : validQuestions e beliefs pin asked category = .ok vl)
    (hs : selectNextQuestion e beliefs pin asked category = .ok (some c)) :
    (∀ y ∈ vl, candGain y ≤ candGain c) ∧
    ∃ l1 l2, vl = l1 ++ c :: l2 ∧ ∀ y ∈ l1, candGain y < candGain c := by
  unfold selectNextQuestion at hs
  by_cases hemp : (candidateQuestions e asked category).isEmpty
  · rw [if_pos hemp] at hs
    simp [pure, Except.pure] at hs
  · rw [if_neg hemp] at hs
    rw [hv] at hs
    simp only [Bind.bind, Except.bind] at hs
    by_cases hve : vl.isEmpty
    · rw [if_pos hve] at hs
      simp [pure, Except.pure] at hs
    · rw [if_neg hve] at hs
      simp only [pure, Except.pure, Except.ok.injEq] at hs
      exact pyMaxBy_spec candGain vl c hs

/-- Witness for C7's amended claim at the concrete tied engine. -/
theorem c7_witness :
    (∀ y ∈ [Candidate.base "z_question" qHighId, Candidate.base "a_question" qLowId],
        candGain y ≤ candGain (Candidate.base "z_question" qHighId)) ∧
    ∃ l1 l2,
      [Candidate.base "z_question" qHighId, Candidate.base "a_question" qLowId]
        = l1 ++ (Candidate.base "z_question" qHighId) :: l2 ∧
      ∀ y ∈ l1, candGain y < candGain (Candidate.base "z_question" qHighId) := by
  apply c7_highest_gain_first_survivor engTie [("c1", 1/2), ("c2", 1/2)] {} [] "laptop"
  · simp +decide [validQuestions, candidateQuestions, engTie, qHighId, qLowId,
      shouldAskQuestion, lookupS, candId, List.filterM, Bind.bind, Except.bind,
      Functor.map, Except.map, pure, Except.pure, getConfidence]
    norm_num
  · simp +decide [selectNextQuestion, candidateQuestions, validQuestions, engTie,
      qHighId, qLowId, shouldAskQuestion, lookupS, candId, candGain, List.filterM,
      Bind.bind, Except.bind, Functor.map, Except.map, pure, Except.pure, pyMaxBy,
      getConfidence]
    norm_num
    intro h
    cases h

end Vision2AR
